import Mathlib

/-!
Verification of the Prontafon desktop BLE GATT server state machine,
the event dispatcher, and the trusted-device store, against
`src/desktop/src/bluetooth/gatt_server.rs`, `src/desktop/src/events.rs`
and `src/desktop/src/storage/paired_devices.rs`.

The embedding is shallow: each Rust function relevant to the claims is
translated into an executable Lean definition over explicit state.
Components of the repository that are not present under `src/`
(the crypto module, the wire protocol codec, the reassembler) are
modelled abstractly, either as parameters of the embedded functions or
as structures modelled from the spec; this is noted on each definition.
-/

namespace Prontafon

/-- Connection state of the GATT server (`ConnectionState` in
`gatt_server.rs`): waiting for pairing, or paired and authenticated. -/
inductive ConnectionState where
  | awaitingPair
  | authenticated
deriving DecidableEq, Repr

/-- Status byte values exposed on the Status characteristic
(`StatusCode` in `ble_constants.rs`, values listed in the spec:
0x00 Idle, 0x01 AwaitingPairing, 0x02 Paired, 0xFF Error). -/
inductive StatusCode where
  | idle
  | awaitingPairing
  | paired
  | error
deriving DecidableEq, Repr

/-- Modelled from the spec: an ephemeral ECDH keypair
(`EcdhKeypair` in `crypto/ecdh.rs`, which is not under `src/`).
`publicKeyB64` stands for `public_key_base64()`; `sharedWith` stands
for `compute_shared_secret_base64(peer_public)`, which may fail. -/
structure EcdhKeypair where
  publicKeyB64 : String
  sharedWith : String → Except String String

/-- Modelled from the spec: the per-session crypto context
(`CryptoContext` in `crypto/mod.rs`, not under `src/`).
`CryptoContext::from_ecdh(shared, android_id, linux_id)` derives it
deterministically from the base64 shared secret and both device ids, so
the model records exactly those derivation inputs. -/
structure CryptoContext where
  sharedSecret : String
  androidDeviceId : String
  linuxDeviceId : String
deriving DecidableEq, Repr

/-- Derivation of the crypto context from the ECDH shared secret and the
two device ids (`CryptoContext::from_ecdh`). -/
def CryptoContext.fromEcdh (shared androidId linuxId : String) : CryptoContext :=
  ⟨shared, androidId, linuxId⟩

/-- Pending pairing data held between PAIR_REQ receipt and the user
verdict (`PendingPairing` in `gatt_server.rs`). -/
structure PendingPairing where
  android_device_id : String
  android_device_name : Option String
  android_public_key : String
  desktop_keypair : EcdhKeypair

/-- Default ATT MTU (`config::DEFAULT_MTU` in `ble_constants.rs`, not
under `src/`; the spec fixes it to 23, the BLE default). -/
def DEFAULT_MTU : Nat := 23

/-- Shared state of the GATT server (`ServerState` in `gatt_server.rs`).
The reassembler field is omitted: the reassembler module is not under
`src/`, and the embedded handlers below take the reassembled message as
an input instead.  `last_connected_time` is a millisecond timestamp
standing for the `std::time::Instant`. -/
structure ServerState where
  crypto : Option CryptoContext
  device_id : Option String
  state : ConnectionState
  negotiated_mtu : Nat
  status_code : StatusCode
  pending_pairing : Option PendingPairing
  last_connected_time : Option Nat

/-- Initial server state (`ServerState::new`). -/
def ServerState.new : ServerState :=
  { crypto := none
  , device_id := none
  , state := ConnectionState.awaitingPair
  , negotiated_mtu := DEFAULT_MTU
  , status_code := StatusCode.idle
  , pending_pairing := none
  , last_connected_time := none }

/-- Events emitted by the GATT server (`ConnectionEvent` in
`gatt_server.rs`). -/
inductive ConnectionEvent where
  | textReceived (text : String)
  | wordReceived (word : String) (seq : Option Nat) (session : String)
  | commandReceived (cmd : String)
  | connected (deviceName : String)
  | disconnected
  | pairRequested (deviceId : String) (deviceName : Option String)
deriving DecidableEq, Repr

/-- One iteration of the BlueZ polling disconnect monitor
(`start_disconnect_monitor`, gatt_server.rs lines 186-274), after the
sleep: `should_check` is `state == Authenticated && device_id.is_some()`;
when the poll finds no connected device (`anyConnected = false`) and the
re-read state is still Authenticated, the server state is reset
(state := AwaitingPair, crypto := None, device_id := None,
status_code := Idle, last_connected_time := None) and a single
`Disconnected` event is sent.  Returns the new state and the events
emitted by this iteration. -/
def bluezPollIteration (anyConnected : Bool) (st : ServerState) :
    ServerState × List ConnectionEvent :=
  if st.state = ConnectionState.authenticated ∧ st.device_id.isSome then
    if anyConnected then (st, [])
    else if st.state = ConnectionState.authenticated then
      ({ st with
          state := ConnectionState.awaitingPair
        , crypto := none
        , device_id := none
        , status_code := StatusCode.idle
        , last_connected_time := none },
       [ConnectionEvent.disconnected])
    else (st, [])
  else (st, [])

/-- The debounce test shared by both notify-failure paths
(gatt_server.rs lines 386-399 and 486-499): the disconnect is ignored
exactly when `last_connected_time` is set and fewer than 500 ms have
elapsed since it. -/
def debounceShouldIgnore (now : Nat) (st : ServerState) : Bool :=
  match st.last_connected_time with
  | some t => now - t < 500
  | none => false

/-- The Response-TX notify-failure disconnect path
(`register_gatt_service`, gatt_server.rs lines 383-414): run when the
notification loop exits with `disconnected = true`.  Unless the debounce
suppresses it, the state is reset (state := AwaitingPair,
crypto := None, device_id := None, last_connected_time := None; the
status code is NOT touched on this path) and `Disconnected` is sent. -/
def respNotifyFailure (now : Nat) (st : ServerState) :
    ServerState × List ConnectionEvent :=
  if debounceShouldIgnore now st then (st, [])
  else
    ({ st with
        state := ConnectionState.awaitingPair
      , crypto := none
      , device_id := none
      , last_connected_time := none },
     [ConnectionEvent.disconnected])

/-- The Status notify-failure disconnect path (`register_gatt_service`,
gatt_server.rs lines 483-516): like the Response-TX path, but this reset
additionally sets `status_code := Idle`. -/
def statusNotifyFailure (now : Nat) (st : ServerState) :
    ServerState × List ConnectionEvent :=
  if debounceShouldIgnore now st then (st, [])
  else
    ({ st with
        state := ConnectionState.awaitingPair
      , crypto := none
      , device_id := none
      , status_code := StatusCode.idle
      , last_connected_time := none },
     [ConnectionEvent.disconnected])

/-- Wire message types (`MessageType` in `protocol.rs`): the spec's
`type ∈ { PAIR_REQ, PAIR_ACK, TEXT, WORD, COMMAND, HEARTBEAT, ACK }`. -/
inductive MessageType where
  | pairReq
  | pairAck
  | text
  | word
  | command
  | heartbeat
  | ack
deriving DecidableEq, Repr

/-- A decoded wire message as `handle_command_write` consumes it after
`Message::from_json`: its type, its (possibly still encrypted) payload
string, and its sender timestamp in milliseconds. -/
structure Message where
  messageType : MessageType
  payload : String
  timestamp : Nat
deriving Repr

/-- Modelled from the spec: the PAIR_REQ payload
(`PairRequestPayload` in `protocol.rs`, not under `src/`):
`{ device_id, device_name?, public_key }`. -/
structure PairRequestPayload where
  device_id : String
  device_name : Option String
  public_key : String
deriving DecidableEq, Repr

/-- Modelled from the spec: the WORD payload (`WordPayload` in
`protocol.rs`, not under `src/`): `{ word, seq?, session }`. -/
structure WordPayload where
  word : String
  seq : Option Nat
  session : String
deriving DecidableEq, Repr

/-- Modelled from the spec: the PAIR_ACK payload (`PairAckPayload` in
`protocol.rs`, not under `src/`):
`{ device_id, status: "ok"|"error", public_key?, reason? }`. -/
structure PairAckPayload where
  device_id : String
  status : String
  public_key : Option String
  reason : Option String
deriving DecidableEq, Repr

/-- Modelled from the spec: `PairAckPayload::success_with_key`. -/
def PairAckPayload.successWithKey (deviceId publicKey : String) : PairAckPayload :=
  ⟨deviceId, "ok", some publicKey, none⟩

/-- Modelled from the spec: `PairAckPayload::error`. -/
def PairAckPayload.mkError (deviceId reason : String) : PairAckPayload :=
  ⟨deviceId, "error", none, some reason⟩

/-- A message the server queues towards the peer, at the granularity the
claims need: either an ACK echoing the sender's timestamp
(`Message::ack(timestamp)`), or a PAIR_ACK with the given payload.
Encryption and MTU chunking happen downstream of this queueing and do
not change which logical messages are sent. -/
inductive OutMessage where
  | ack (timestamp : Nat)
  | pairAck (payload : PairAckPayload)
deriving DecidableEq, Repr

/-- Parsers and crypto hooks that `handle_command_write` calls into,
living in modules not under `src/` (`protocol.rs`, `crypto`).  They are
deterministic functions; the embedding abstracts over them. -/
structure ProtocolHooks where
  parsePairReq : String → Except String PairRequestPayload
  parseWord : String → Except String WordPayload
  verifyAndDecrypt : CryptoContext → Message → Except String String

/-- Message dispatch of `handle_command_write` (gatt_server.rs lines
629-774), applied to one fully reassembled and JSON-decoded message.
`genKeypair` is the ECDH keypair freshly generated in the PAIR_REQ
branch (`EcdhKeypair::generate()`).  Mirrors the source: messages of
types TEXT/WORD/COMMAND are first run through `verify_and_decrypt` when
a crypto context is installed (the call replaces the payload with the
decrypted plaintext and leaves the type and timestamp alone; the
message is dropped on failure); PAIR_REQ with an
empty public key is dropped before any state change; TEXT/WORD/COMMAND
in a non-Authenticated state are dropped before any event or ACK;
HEARTBEAT is ACKed; PAIR_ACK and ACK are ignored.  Returns the new
state, the events sent to the main loop, and the responses queued. -/
def handleMessage (hooks : ProtocolHooks) (genKeypair : EcdhKeypair)
    (msg : Message) (st : ServerState) :
    ServerState × List ConnectionEvent × List OutMessage :=
  let verified : Except String Message :=
    match st.crypto with
    | some c =>
        if msg.messageType = MessageType.text ∨ msg.messageType = MessageType.word
            ∨ msg.messageType = MessageType.command then
          (hooks.verifyAndDecrypt c msg).map fun p => { msg with payload := p }
        else Except.ok msg
    | none => Except.ok msg
  match verified with
  | Except.error _ => (st, [], [])
  | Except.ok message =>
    match message.messageType with
    | MessageType.pairReq =>
        match hooks.parsePairReq message.payload with
        | Except.error _ => (st, [], [])
        | Except.ok payload =>
            if payload.public_key.isEmpty then (st, [], [])
            else
              ({ st with
                  device_id := some payload.device_id
                , status_code := StatusCode.awaitingPairing
                , pending_pairing := some
                    { android_device_id := payload.device_id
                    , android_device_name := payload.device_name
                    , android_public_key := payload.public_key
                    , desktop_keypair := genKeypair } },
               [ConnectionEvent.pairRequested payload.device_id payload.device_name],
               [OutMessage.ack message.timestamp])
    | MessageType.text =>
        if st.state ≠ ConnectionState.authenticated then (st, [], [])
        else
          (st, [ConnectionEvent.textReceived message.payload],
           [OutMessage.ack message.timestamp])
    | MessageType.word =>
        if st.state ≠ ConnectionState.authenticated then (st, [], [])
        else
          match hooks.parseWord message.payload with
          | Except.ok wp =>
              (st, [ConnectionEvent.wordReceived wp.word wp.seq wp.session],
               [OutMessage.ack message.timestamp])
          | Except.error _ =>
              (st, [], [OutMessage.ack message.timestamp])
    | MessageType.command =>
        if st.state ≠ ConnectionState.authenticated then (st, [], [])
        else
          (st, [ConnectionEvent.commandReceived message.payload],
           [OutMessage.ack message.timestamp])
    | MessageType.heartbeat => (st, [], [OutMessage.ack message.timestamp])
    | _ => (st, [], [])

/-- One write to the Command-RX characteristic (`handle_command_write`,
gatt_server.rs lines 574-778).  `writeMtu` is `req.mtu`, the effective
ATT MTU of the write: the stored `negotiated_mtu` is raised to it
exactly when it exceeds the stored value (lines 594-601).  `decoded` is
the outcome of the reassembler and of `Message::from_json` on this
write: `none` when no complete message was produced or it failed UTF-8
or JSON decoding, `some msg` otherwise (those stages live in modules
not under `src/`). -/
def handleCommandWrite (hooks : ProtocolHooks) (genKeypair : EcdhKeypair)
    (writeMtu : Nat) (decoded : Option Message) (st : ServerState) :
    ServerState × List ConnectionEvent × List OutMessage :=
  let st1 := { st with
    negotiated_mtu :=
      if writeMtu > st.negotiated_mtu then writeMtu else st.negotiated_mtu }
  match decoded with
  | none => (st1, [], [])
  | some msg => handleMessage hooks genKeypair msg st1

/-- One Command-RX write for the purpose of folding a whole sequence of
writes: its ATT MTU, its decoded message (if any), and the keypair the
PAIR_REQ branch would generate. -/
structure WriteInput where
  mtu : Nat
  decoded : Option Message
  gen : EcdhKeypair

/-- A sequence of Command-RX writes applied to the freshly created
server state. -/
def processWrites (hooks : ProtocolHooks) (ws : List WriteInput) : ServerState :=
  ws.foldl (fun st w => (handleCommandWrite hooks w.gen w.mtu w.decoded st).1)
    ServerState.new

/-- Result of `complete_pairing` (gatt_server.rs lines 819-886): the
`Result` the method returns, the server state it leaves behind, the
messages queued on Response-TX, the status bytes queued on the Status
notify channel, and the events sent to the main loop. -/
structure CompletePairingResult where
  result : Except String Unit
  state : ServerState
  sent : List OutMessage
  statusNotified : List StatusCode
  events : List ConnectionEvent

/-- The `complete_pairing` method (gatt_server.rs lines 819-886).
`linuxId` is `self.linux_device_id`; `now` is the millisecond timestamp
taken by `std::time::Instant::now()`.  Mirrors the source: the pending
pairing is `take`n first (so it is cleared even when the ECDH shared
secret computation then fails and the method returns `Err`); on success
the crypto context derived from the shared secret is installed, the
state becomes Authenticated with status Paired, a
PAIR_ACK{status:ok, public_key} is queued, the Paired status byte is
notified, and a `Connected` event is emitted. -/
def completePairing (linuxId : String) (now : Nat) (st : ServerState) :
    CompletePairingResult :=
  match st.pending_pairing with
  | none =>
      { result := Except.error "No pending pairing request"
      , state := st, sent := [], statusNotified := [], events := [] }
  | some pending =>
      let stTaken := { st with pending_pairing := none }
      let desktopPublicKey := pending.desktop_keypair.publicKeyB64
      match pending.desktop_keypair.sharedWith pending.android_public_key with
      | Except.error e =>
          { result := Except.error e
          , state := stTaken, sent := [], statusNotified := [], events := [] }
      | Except.ok sharedSecret =>
          let crypto :=
            CryptoContext.fromEcdh sharedSecret pending.android_device_id linuxId
          let payload := PairAckPayload.successWithKey linuxId desktopPublicKey
          let st' := { stTaken with
              crypto := some crypto
            , state := ConnectionState.authenticated
            , status_code := StatusCode.paired
            , device_id := some pending.android_device_id
            , last_connected_time := some now }
          { result := Except.ok ()
          , state := st'
          , sent := [OutMessage.pairAck payload]
          , statusNotified := [StatusCode.paired]
          , events := [ConnectionEvent.connected
              (pending.android_device_name.getD pending.android_device_id)] }

/-- The `reject_pairing` method (gatt_server.rs lines 889-911).  It
acquires only a read lock on the server state: it reads `device_id` for
logging and `negotiated_mtu` for chunking, queues a
PAIR_ACK{status:error, reason}, and performs no state mutation at all.
Returns the (unchanged) state and the messages queued. -/
def rejectPairing (linuxId reason : String) (st : ServerState) :
    ServerState × List OutMessage :=
  (st, [OutMessage.pairAck (PairAckPayload.mkError linuxId reason)])

/-- Actions the event dispatcher performs on one event
(`EventProcessor::process_event`, events.rs lines 67-101), at dispatch
granularity: delegate to a handler, or reset the word buffer.  The
`Disconnected` and `PairRequested` arms of the source only log. -/
inductive DispatchAction where
  | handleText (text : String)
  | handleWord (word : String) (seq : Option Nat) (session : String)
  | handleCommand (cmd : String)
  | resetWordBuffer
deriving DecidableEq, Repr

/-- The dispatch performed by `EventProcessor::process_event`
(events.rs lines 67-101) on one connection event: `TextReceived`,
`WordReceived` and `CommandReceived` go to their handlers; `Connected`
calls `self.word_buffer.reset()`; `Disconnected` and `PairRequested`
only log and perform no action. -/
def processEventActions : ConnectionEvent → List DispatchAction
  | ConnectionEvent.textReceived t => [DispatchAction.handleText t]
  | ConnectionEvent.wordReceived w s sess => [DispatchAction.handleWord w s sess]
  | ConnectionEvent.commandReceived c => [DispatchAction.handleCommand c]
  | ConnectionEvent.connected _ => [DispatchAction.resetWordBuffer]
  | ConnectionEvent.disconnected => []
  | ConnectionEvent.pairRequested _ _ => []

/-- A trusted device entry (`TrustedDevice` in `paired_devices.rs`). -/
structure TrustedDevice where
  device_id : String
  device_name : Option String
  first_paired : String
  last_connected : String
deriving DecidableEq, Repr

/-- The in-memory `devices` list mutation of
`TrustedDeviceStore::add_trusted` (paired_devices.rs lines 96-117).
`now` is `Utc::now().to_rfc3339()`.  The source finds the first entry
with the given `device_id` via `iter_mut().find` and updates its
`device_name` and `last_connected` in place; when none exists it pushes
a fresh entry with `first_paired = last_connected = now`. -/
def addTrusted (now deviceId : String) (deviceName : Option String) :
    List TrustedDevice → List TrustedDevice
  | [] => [{ device_id := deviceId, device_name := deviceName
           , first_paired := now, last_connected := now }]
  | d :: rest =>
      if d.device_id = deviceId then
        { d with device_name := deviceName, last_connected := now } :: rest
      else d :: addTrusted now deviceId deviceName rest

/-- The in-memory `devices` list mutation of
`TrustedDeviceStore::update_last_connected` (paired_devices.rs lines
120-128): the first entry with the given `device_id` gets
`last_connected := now`; when none exists the method bails with an
error and the list is untouched. -/
def updateLastConnected (now deviceId : String) :
    List TrustedDevice → Except String (List TrustedDevice)
  | [] => Except.error "Device not found in trusted devices"
  | d :: rest =>
      if d.device_id = deviceId then
        Except.ok ({ d with last_connected := now } :: rest)
      else (updateLastConnected now deviceId rest).map (d :: ·)

/-- One store operation, for folding sequences of operations. -/
inductive StoreOp where
  | add (now deviceId : String) (deviceName : Option String)
  | update (now deviceId : String)

/-- Apply one store operation to the devices list; a failing
`update_last_connected` leaves the list unchanged. -/
def applyStoreOp (op : StoreOp) (l : List TrustedDevice) : List TrustedDevice :=
  match op with
  | StoreOp.add now id name => addTrusted now id name l
  | StoreOp.update now id =>
      match updateLastConnected now id l with
      | Except.ok l' => l'
      | Except.error _ => l

/-- Apply a sequence of store operations. -/
def applyStoreOps (ops : List StoreOp) (l : List TrustedDevice) :
    List TrustedDevice :=
  ops.foldl (fun l op => applyStoreOp op l) l

/-! Concrete fixtures used by counterexamples and witnesses. -/

/-- A concrete ECDH keypair whose shared-secret computation succeeds. -/
def exKeypair : EcdhKeypair :=
  { publicKeyB64 := "desktop-pk"
  , sharedWith := fun _ => Except.ok "shared-secret" }

/-- A concrete pending pairing record. -/
def exPending : PendingPairing :=
  { android_device_id := "android-1"
  , android_device_name := some "Pixel"
  , android_public_key := "android-pk"
  , desktop_keypair := exKeypair }

/-- A concrete authenticated server state with a pending (re-)pairing
request, an MTU raised above the default, and a connection recorded at
time 0.  Such a state is reachable: pair (Authenticated, MTU grows on a
write with a larger ATT MTU), then receive a second PAIR_REQ, which
stores `pending_pairing` without touching `state`. -/
def exDisconnectState : ServerState :=
  { crypto := some (CryptoContext.fromEcdh "shared-secret" "android-1" "linux-1")
  , device_id := some "android-1"
  , state := ConnectionState.authenticated
  , negotiated_mtu := 185
  , status_code := StatusCode.paired
  , pending_pairing := some exPending
  , last_connected_time := some 0 }

/-- A concrete authenticated server state with no pending pairing. -/
def exAuthState : ServerState :=
  { crypto := some (CryptoContext.fromEcdh "shared-secret" "android-1" "linux-1")
  , device_id := some "android-1"
  , state := ConnectionState.authenticated
  , negotiated_mtu := 23
  , status_code := StatusCode.paired
  , pending_pairing := none
  , last_connected_time := some 0 }

/-- A concrete awaiting-pair server state holding a pending pairing
request (the state right after a PAIR_REQ was accepted for decision). -/
def exPairState : ServerState :=
  { ServerState.new with
      device_id := some "android-1"
    , status_code := StatusCode.awaitingPairing
    , pending_pairing := some exPending }

/-! Helper lemmas. -/

/-- Message dispatch never changes the negotiated MTU: only the MTU
update at the top of `handle_command_write` touches it. -/
theorem handleMessage_mtu (hooks : ProtocolHooks) (kp : EcdhKeypair)
    (msg : Message) (st : ServerState) :
    (handleMessage hooks kp msg st).1.negotiated_mtu = st.negotiated_mtu := by
  unfold handleMessage
  dsimp only
  repeat' split <;> try rfl

/-- The negotiated MTU after one Command-RX write is the written ATT MTU
when it exceeds the stored value, and the stored value otherwise. -/
theorem handleCommandWrite_mtu (hooks : ProtocolHooks) (kp : EcdhKeypair)
    (writeMtu : Nat) (decoded : Option Message) (st : ServerState) :
    (handleCommandWrite hooks kp writeMtu decoded st).1.negotiated_mtu
      = if writeMtu > st.negotiated_mtu then writeMtu else st.negotiated_mtu := by
  unfold handleCommandWrite
  cases decoded with
  | none => rfl
  | some msg => simp [handleMessage_mtu]

/-- Folding Command-RX writes never lowers the negotiated MTU. -/
theorem foldl_writes_mtu_le (hooks : ProtocolHooks) (ws : List WriteInput)
    (st : ServerState) :
    st.negotiated_mtu ≤
      (ws.foldl (fun st w => (handleCommandWrite hooks w.gen w.mtu w.decoded st).1)
        st).negotiated_mtu := by
  induction ws generalizing st with
  | nil => simp
  | cons w ws ih =>
      simp only [List.foldl_cons]
      refine le_trans ?_ (ih _)
      rw [handleCommandWrite_mtu]
      split <;> omega

/-- C6: On every write to Command-RX the server sets `negotiated_mtu` to
the write's ATT MTU exactly when that value exceeds the stored one, so
the MTU never decreases across a write, over any sequence of writes from
the initial state it stays at least the initial 23, and extending a
write sequence never lowers it. -/
theorem C6_mtu_monotone (hooks : ProtocolHooks) (kp : EcdhKeypair)
    (writeMtu : Nat) (decoded : Option Message) (st : ServerState)
    (ws ws' : List WriteInput) :
    (handleCommandWrite hooks kp writeMtu decoded st).1.negotiated_mtu
        = (if writeMtu > st.negotiated_mtu then writeMtu else st.negotiated_mtu)
    ∧ st.negotiated_mtu ≤
        (handleCommandWrite hooks kp writeMtu decoded st).1.negotiated_mtu
    ∧ DEFAULT_MTU ≤ (processWrites hooks ws).negotiated_mtu
    ∧ (processWrites hooks ws).negotiated_mtu ≤
        (processWrites hooks (ws ++ ws')).negotiated_mtu := by
  refine ⟨handleCommandWrite_mtu hooks kp writeMtu decoded st, ?_, ?_, ?_⟩
  · rw [handleCommandWrite_mtu]; split <;> omega
  · have h := foldl_writes_mtu_le hooks ws ServerState.new
    simpa [processWrites, ServerState.new] using h
  · have h := foldl_writes_mtu_le hooks ws' (processWrites hooks ws)
    simpa [processWrites, List.foldl_append] using h

/-- C7: A reassembled message of type TEXT, WORD or COMMAND that is
processed while the state is not Authenticated is dropped: the server
state (in particular crypto, device_id, state, pending_pairing) is
unchanged, no ConnectionEvent is emitted and no ACK is sent. -/
theorem C7_unauthorized_drop (hooks : ProtocolHooks) (kp : EcdhKeypair)
    (msg : Message) (st : ServerState)
    (hty : msg.messageType = MessageType.text ∨ msg.messageType = MessageType.word
      ∨ msg.messageType = MessageType.command)
    (hst : st.state ≠ ConnectionState.authenticated) :
    handleMessage hooks kp msg st = (st, [], []) := by
  unfold handleMessage
  dsimp only
  cases hc : st.crypto with
  | none =>
      rcases hty with h | h | h <;>
        simp [h, hst]
  | some c =>
      rcases hty with h | h | h <;>
        (cases hv : hooks.verifyAndDecrypt c msg with
         | error e => simp [h, hv, Except.map]
         | ok p => simp [h, hv, Except.map, hst])

/-- Witness for C7 at a concrete text message and the initial
(awaiting-pair) state. -/
theorem C7_unauthorized_drop_witness :
    handleMessage
      { parsePairReq := fun _ => Except.error "unused"
      , parseWord := fun _ => Except.error "unused"
      , verifyAndDecrypt := fun _ _ => Except.ok "plain" }
      exKeypair
      { messageType := MessageType.text, payload := "hello", timestamp := 7 }
      ServerState.new
    = (ServerState.new, [], []) :=
  C7_unauthorized_drop _ exKeypair _ ServerState.new
    (Or.inl rfl) (by simp [ServerState.new])

/-- C9: A reassembled PAIR_REQ whose parsed payload has an empty
public_key is dropped atomically: the server state is unchanged (no
pending_pairing stored, device_id and status_code untouched), no
PairRequested event is emitted, and nothing is sent to the peer. -/
theorem C9_empty_pubkey_drop (hooks : ProtocolHooks) (kp : EcdhKeypair)
    (msg : Message) (st : ServerState) (payload : PairRequestPayload)
    (hty : msg.messageType = MessageType.pairReq)
    (hp : hooks.parsePairReq msg.payload = Except.ok payload)
    (he : payload.public_key = "") :
    handleMessage hooks kp msg st = (st, [], []) := by
  have he' : payload.public_key.isEmpty = true := by rw [he]; rfl
  unfold handleMessage
  dsimp only
  cases hc : st.crypto with
  | none => simp [hty, hp, he']
  | some c => simp [hty, hp, he']

/-- Witness for C9 at a concrete PAIR_REQ whose payload parses to an
empty public key, against the initial state. -/
theorem C9_empty_pubkey_drop_witness :
    handleMessage
      { parsePairReq := fun _ => Except.ok
          { device_id := "android-1", device_name := some "Pixel", public_key := "" }
      , parseWord := fun _ => Except.error "unused"
      , verifyAndDecrypt := fun _ _ => Except.error "unused" }
      exKeypair
      { messageType := MessageType.pairReq, payload := "req", timestamp := 3 }
      ServerState.new
    = (ServerState.new, [], []) :=
  C9_empty_pubkey_drop _ exKeypair _ ServerState.new
    { device_id := "android-1", device_name := some "Pixel", public_key := "" }
    rfl rfl rfl

/-- C1 counterexample: the BlueZ polling detector emits `Disconnected`
from a reachable state holding a pending pairing and an MTU of 185, yet
the resulting state still has `pending_pairing` set and
`negotiated_mtu = 185`, not 23: no disconnect path clears
`pending_pairing` or resets the MTU. -/
theorem C1_counterexample :
    (bluezPollIteration false exDisconnectState).2 = [ConnectionEvent.disconnected]
    ∧ (bluezPollIteration false exDisconnectState).1.pending_pairing ≠ none
    ∧ (bluezPollIteration false exDisconnectState).1.negotiated_mtu = 185 := by
  refine ⟨rfl, ?_, rfl⟩
  intro h
  simp [bluezPollIteration, exDisconnectState] at h

/-- C1 (amended): whenever a disconnect path emits `Disconnected`, the
resulting state has crypto = None, device_id = None,
state = AwaitingPair and last_connected_time = None, while
pending_pairing and negotiated_mtu keep their previous values; the
status code is set to Idle on the BlueZ and Status paths and left
untouched on the Response-TX path. -/
theorem C1_disconnect_reset (anyConn : Bool) (now : Nat) (st : ServerState) :
    ((bluezPollIteration anyConn st).2 = [ConnectionEvent.disconnected] →
      ((bluezPollIteration anyConn st).1.crypto = none
        ∧ (bluezPollIteration anyConn st).1.device_id = none
        ∧ (bluezPollIteration anyConn st).1.state = ConnectionState.awaitingPair
        ∧ (bluezPollIteration anyConn st).1.status_code = StatusCode.idle
        ∧ (bluezPollIteration anyConn st).1.last_connected_time = none
        ∧ (bluezPollIteration anyConn st).1.pending_pairing = st.pending_pairing
        ∧ (bluezPollIteration anyConn st).1.negotiated_mtu = st.negotiated_mtu))
    ∧ ((respNotifyFailure now st).2 = [ConnectionEvent.disconnected] →
      ((respNotifyFailure now st).1.crypto = none
        ∧ (respNotifyFailure now st).1.device_id = none
        ∧ (respNotifyFailure now st).1.state = ConnectionState.awaitingPair
        ∧ (respNotifyFailure now st).1.status_code = st.status_code
        ∧ (respNotifyFailure now st).1.last_connected_time = none
        ∧ (respNotifyFailure now st).1.pending_pairing = st.pending_pairing
        ∧ (respNotifyFailure now st).1.negotiated_mtu = st.negotiated_mtu))
    ∧ ((statusNotifyFailure now st).2 = [ConnectionEvent.disconnected] →
      ((statusNotifyFailure now st).1.crypto = none
        ∧ (statusNotifyFailure now st).1.device_id = none
        ∧ (statusNotifyFailure now st).1.state = ConnectionState.awaitingPair
        ∧ (statusNotifyFailure now st).1.status_code = StatusCode.idle
        ∧ (statusNotifyFailure now st).1.last_connected_time = none
        ∧ (statusNotifyFailure now st).1.pending_pairing = st.pending_pairing
        ∧ (statusNotifyFailure now st).1.negotiated_mtu = st.negotiated_mtu)) := by
  refine ⟨?_, ?_, ?_⟩ <;> intro h
  · unfold bluezPollIteration at *
    repeat' split at h <;> simp_all
  · unfold respNotifyFailure at *
    split at h <;> simp_all
  · unfold statusNotifyFailure at *
    split at h <;> simp_all

/-- Witness for the amended C1 on the concrete state: all three
detectors fire there and leave pending_pairing and the 185-byte MTU in
place. -/
theorem C1_disconnect_reset_witness :
    ((bluezPollIteration false exDisconnectState).1.crypto = none
      ∧ (bluezPollIteration false exDisconnectState).1.device_id = none
      ∧ (bluezPollIteration false exDisconnectState).1.state = ConnectionState.awaitingPair
      ∧ (bluezPollIteration false exDisconnectState).1.status_code = StatusCode.idle
      ∧ (bluezPollIteration false exDisconnectState).1.last_connected_time = none
      ∧ (bluezPollIteration false exDisconnectState).1.pending_pairing
          = exDisconnectState.pending_pairing
      ∧ (bluezPollIteration false exDisconnectState).1.negotiated_mtu
          = exDisconnectState.negotiated_mtu)
    ∧ ((respNotifyFailure 1000 exDisconnectState).1.crypto = none
      ∧ (respNotifyFailure 1000 exDisconnectState).1.device_id = none
      ∧ (respNotifyFailure 1000 exDisconnectState).1.state = ConnectionState.awaitingPair
      ∧ (respNotifyFailure 1000 exDisconnectState).1.status_code
          = exDisconnectState.status_code
      ∧ (respNotifyFailure 1000 exDisconnectState).1.last_connected_time = none
      ∧ (respNotifyFailure 1000 exDisconnectState).1.pending_pairing
          = exDisconnectState.pending_pairing
      ∧ (respNotifyFailure 1000 exDisconnectState).1.negotiated_mtu
          = exDisconnectState.negotiated_mtu)
    ∧ ((statusNotifyFailure 1000 exDisconnectState).1.crypto = none
      ∧ (statusNotifyFailure 1000 exDisconnectState).1.device_id = none
      ∧ (statusNotifyFailure 1000 exDisconnectState).1.state = ConnectionState.awaitingPair
      ∧ (statusNotifyFailure 1000 exDisconnectState).1.status_code = StatusCode.idle
      ∧ (statusNotifyFailure 1000 exDisconnectState).1.last_connected_time = none
      ∧ (statusNotifyFailure 1000 exDisconnectState).1.pending_pairing
          = exDisconnectState.pending_pairing
      ∧ (statusNotifyFailure 1000 exDisconnectState).1.negotiated_mtu
          = exDisconnectState.negotiated_mtu) :=
  ⟨(C1_disconnect_reset false 1000 exDisconnectState).1 rfl,
   (C1_disconnect_reset false 1000 exDisconnectState).2.1 rfl,
   (C1_disconnect_reset false 1000 exDisconnectState).2.2 rfl⟩

/-- C3 counterexample: the BlueZ polling detector applies no debounce.
At wall time 100 ms, only 100 ms after `last_connected_at = 0`, it still
performs the reset and emits `Disconnected` (it does not consult the
clock at all). -/
theorem C3_counterexample :
    exDisconnectState.last_connected_time = some 0
    ∧ (100 : Nat) - 0 < 500
    ∧ (bluezPollIteration false exDisconnectState).2 = [ConnectionEvent.disconnected]
    ∧ (bluezPollIteration false exDisconnectState).1.state
        = ConnectionState.awaitingPair := by
  refine ⟨rfl, by norm_num, rfl, rfl⟩

/-- C3 (amended): only the notify-failure detectors debounce: when
`last_connected_time` is set and fewer than 500 ms have elapsed, both
leave the state untouched and emit nothing.  (The BlueZ polling
detector performs no such check; see the counterexample.) -/
theorem C3_debounce (now t : Nat) (st : ServerState)
    (h : st.last_connected_time = some t) (hlt : now - t < 500) :
    respNotifyFailure now st = (st, [])
    ∧ statusNotifyFailure now st = (st, []) := by
  constructor <;>
    simp [respNotifyFailure, statusNotifyFailure, debounceShouldIgnore, h, hlt]

/-- Witness for the amended C3: a notify failure 100 ms after the
connection is ignored by both notify paths. -/
theorem C3_debounce_witness :
    respNotifyFailure 100 exDisconnectState = (exDisconnectState, [])
    ∧ statusNotifyFailure 100 exDisconnectState = (exDisconnectState, []) :=
  C3_debounce 100 0 exDisconnectState rfl (by norm_num)

/-- C4 counterexample: two detectors emit `Disconnected` for one and
the same Authenticated-to-AwaitingPair transition.  The BlueZ poll
resets the state and emits once; the Response-TX notify-failure path,
observing the same link loss afterwards, emits a second `Disconnected`
(it checks neither the connection state nor — `last_connected_time`
having been cleared by the first reset — the debounce). -/
theorem C4_counterexample :
    (bluezPollIteration false exAuthState).2 = [ConnectionEvent.disconnected]
    ∧ (bluezPollIteration false exAuthState).1.state = ConnectionState.awaitingPair
    ∧ (respNotifyFailure 1000 (bluezPollIteration false exAuthState).1).2
        = [ConnectionEvent.disconnected] := by
  refine ⟨rfl, rfl, rfl⟩

/-- C4 (amended): the BlueZ polling detector is idempotent — once it has
emitted, a second poll of the reset state emits nothing — but the
notify-failure detectors are not: each emits `Disconnected` whenever its
notify pump fails and the debounce does not suppress it, regardless of
the connection state. -/
theorem C4_detector_idempotence (c c' : Bool) (now : Nat) (st st2 : ServerState)
    (h : (bluezPollIteration c st).2 ≠ [])
    (h2 : debounceShouldIgnore now st2 = false) :
    (bluezPollIteration c' (bluezPollIteration c st).1).2 = []
    ∧ (respNotifyFailure now st2).2 = [ConnectionEvent.disconnected]
    ∧ (statusNotifyFailure now st2).2 = [ConnectionEvent.disconnected] := by
  refine ⟨?_, ?_, ?_⟩
  · unfold bluezPollIteration at *
    repeat' split at h <;> simp_all
  · simp [respNotifyFailure, h2]
  · simp [statusNotifyFailure, h2]

/-- Witness for the amended C4 on the concrete authenticated state: the
second poll after the BlueZ reset is silent, while the notify-failure
paths fire on the reset state. -/
theorem C4_detector_idempotence_witness :
    (bluezPollIteration false (bluezPollIteration false exAuthState).1).2 = []
    ∧ (respNotifyFailure 1000 (bluezPollIteration false exAuthState).1).2
        = [ConnectionEvent.disconnected]
    ∧ (statusNotifyFailure 1000 (bluezPollIteration false exAuthState).1).2
        = [ConnectionEvent.disconnected] :=
  C4_detector_idempotence false false 1000 exAuthState
    (bluezPollIteration false exAuthState).1 (by decide) rfl

/-- C2 counterexample: after `reject_pairing` returns on a state holding
a pending pairing request, `pending_pairing` is still set and the status
code is still AwaitingPairing, not Idle — the reject path takes only a
read lock and mutates nothing. -/
theorem C2_counterexample :
    (rejectPairing "linux-1" "denied" exPairState).1.pending_pairing = some exPending
    ∧ (rejectPairing "linux-1" "denied" exPairState).1.status_code
        = StatusCode.awaitingPairing := ⟨rfl, rfl⟩

/-- C2 (amended): `complete_pairing` always leaves `pending_pairing`
cleared (it is `take`n before the ECDH computation, so this holds on the
success and the failure path alike); `reject_pairing` replies
PAIR_ACK{status:error, reason} but leaves the entire server state —
`pending_pairing` and `status_code` included — unchanged. -/
theorem C2_pending_pairing (linuxId reason : String) (now : Nat)
    (st : ServerState) :
    (completePairing linuxId now st).state.pending_pairing = none
    ∧ (rejectPairing linuxId reason st).1 = st
    ∧ (rejectPairing linuxId reason st).2
        = [OutMessage.pairAck (PairAckPayload.mkError linuxId reason)] := by
  refine ⟨?_, rfl, rfl⟩
  unfold completePairing
  cases h : st.pending_pairing with
  | none => simp [h]
  | some pending =>
      cases hsw : pending.desktop_keypair.sharedWith pending.android_public_key <;>
        simp [h, hsw]

/-- C5: when a pending pairing is present and the ECDH shared-secret
computation succeeds, `complete_pairing` returns Ok, installs the crypto
context derived from the shared secret and the two device ids, sets the
state to Authenticated and the status to Paired, binds the peer's
device id, queues PAIR_ACK{status:ok, public_key} with the desktop
public key, notifies the Paired status byte, and emits a single
`Connected` event; afterwards `crypto.is_some()` and
`state == Authenticated` hold together. -/
theorem C5_complete_pairing (linuxId : String) (now : Nat) (st : ServerState)
    (pending : PendingPairing) (shared : String)
    (hp : st.pending_pairing = some pending)
    (hs : pending.desktop_keypair.sharedWith pending.android_public_key
        = Except.ok shared) :
    (completePairing linuxId now st).result = Except.ok ()
    ∧ (completePairing linuxId now st).state.crypto
        = some (CryptoContext.fromEcdh shared pending.android_device_id linuxId)
    ∧ (completePairing linuxId now st).state.state = ConnectionState.authenticated
    ∧ (completePairing linuxId now st).state.status_code = StatusCode.paired
    ∧ (completePairing linuxId now st).state.device_id
        = some pending.android_device_id
    ∧ (completePairing linuxId now st).state.last_connected_time = some now
    ∧ (completePairing linuxId now st).sent
        = [OutMessage.pairAck (PairAckPayload.successWithKey linuxId
            pending.desktop_keypair.publicKeyB64)]
    ∧ (completePairing linuxId now st).statusNotified = [StatusCode.paired]
    ∧ (completePairing linuxId now st).events
        = [ConnectionEvent.connected
            (pending.android_device_name.getD pending.android_device_id)]
    ∧ ((completePairing linuxId now st).state.crypto.isSome
        ↔ (completePairing linuxId now st).state.state
            = ConnectionState.authenticated) := by
  unfold completePairing
  simp [hp, hs]

/-- Witness for C5 at the concrete awaiting-pair state whose keypair
computes the shared secret successfully. -/
theorem C5_complete_pairing_witness :
    (completePairing "linux-1" 5000 exPairState).result = Except.ok ()
    ∧ (completePairing "linux-1" 5000 exPairState).state.crypto
        = some (CryptoContext.fromEcdh "shared-secret"
            exPending.android_device_id "linux-1")
    ∧ (completePairing "linux-1" 5000 exPairState).state.state
        = ConnectionState.authenticated
    ∧ (completePairing "linux-1" 5000 exPairState).state.status_code
        = StatusCode.paired
    ∧ (completePairing "linux-1" 5000 exPairState).state.device_id
        = some exPending.android_device_id
    ∧ (completePairing "linux-1" 5000 exPairState).state.last_connected_time
        = some 5000
    ∧ (completePairing "linux-1" 5000 exPairState).sent
        = [OutMessage.pairAck (PairAckPayload.successWithKey "linux-1"
            exPending.desktop_keypair.publicKeyB64)]
    ∧ (completePairing "linux-1" 5000 exPairState).statusNotified
        = [StatusCode.paired]
    ∧ (completePairing "linux-1" 5000 exPairState).events
        = [ConnectionEvent.connected
            (exPending.android_device_name.getD exPending.android_device_id)]
    ∧ ((completePairing "linux-1" 5000 exPairState).state.crypto.isSome
        ↔ (completePairing "linux-1" 5000 exPairState).state.state
            = ConnectionState.authenticated) :=
  C5_complete_pairing "linux-1" 5000 exPairState exPending "shared-secret" rfl rfl

/-- C8 counterexample: the event dispatcher performs no action at all on
`Disconnected` — in particular it does not invoke `WordBuffer.reset()`;
only the `Connected` arm does. -/
theorem C8_counterexample :
    processEventActions ConnectionEvent.disconnected = []
    ∧ DispatchAction.resetWordBuffer ∉
        processEventActions ConnectionEvent.disconnected := by
  refine ⟨rfl, by simp [processEventActions]⟩

/-- C8 (amended): of the two connection-lifecycle events, only
`Connected` triggers `WordBuffer.reset()`; the `Disconnected` arm of
`process_event` only logs and dispatches nothing. -/
theorem C8_connected_resets (deviceName : String) :
    processEventActions (ConnectionEvent.connected deviceName)
        = [DispatchAction.resetWordBuffer]
    ∧ processEventActions ConnectionEvent.disconnected = [] :=
  ⟨rfl, rfl⟩

/-- Adding a device whose id is already present leaves the id and
first_paired columns of the list unchanged (the matching entry is
updated in place, nothing is appended). -/
theorem addTrusted_pairs_of_mem (now deviceId : String) (name : Option String)
    (l : List TrustedDevice) (h : deviceId ∈ l.map TrustedDevice.device_id) :
    (addTrusted now deviceId name l).map (fun d => (d.device_id, d.first_paired))
      = l.map (fun d => (d.device_id, d.first_paired)) := by
  induction l with
  | nil => simp at h
  | cons d rest ih =>
      by_cases hd : d.device_id = deviceId
      · simp [addTrusted, hd]
      · have hmem : deviceId ∈ rest.map TrustedDevice.device_id := by
          simp at h
          rcases h with h | h
          · exact absurd h.symm hd
          · simpa using h
        simp [addTrusted, hd, ih hmem]

/-- Adding a device whose id is absent appends exactly one entry with
that id at the end. -/
theorem addTrusted_ids_of_not_mem (now deviceId : String) (name : Option String)
    (l : List TrustedDevice) (h : deviceId ∉ l.map TrustedDevice.device_id) :
    (addTrusted now deviceId name l).map TrustedDevice.device_id
      = l.map TrustedDevice.device_id ++ [deviceId] := by
  induction l with
  | nil => simp [addTrusted]
  | cons d rest ih =>
      have hd : d.device_id ≠ deviceId := by
        intro he
        exact h (by simp [he])
      have hmem : deviceId ∉ rest.map TrustedDevice.device_id := by
        intro hm
        exact h (by simp [hm])
      simp [addTrusted, hd, ih hmem]

/-- The device-id column is preserved by `add_trusted`, and so is its
freedom from duplicates. -/
theorem addTrusted_nodup (now deviceId : String) (name : Option String)
    (l : List TrustedDevice) (h : (l.map TrustedDevice.device_id).Nodup) :
    ((addTrusted now deviceId name l).map TrustedDevice.device_id).Nodup := by
  by_cases hm : deviceId ∈ l.map TrustedDevice.device_id
  · have hpairs := addTrusted_pairs_of_mem now deviceId name l hm
    have hids : (addTrusted now deviceId name l).map TrustedDevice.device_id
        = l.map TrustedDevice.device_id := by
      have := congrArg (List.map Prod.fst) hpairs
      simpa [Function.comp] using this
    rw [hids]; exact h
  · rw [addTrusted_ids_of_not_mem now deviceId name l hm]
    simp [List.nodup_append, h, hm]

/-- A successful `update_last_connected` leaves the device-id column
unchanged. -/
theorem updateLastConnected_ids (now deviceId : String)
    (l l' : List TrustedDevice) (h : updateLastConnected now deviceId l = Except.ok l') :
    l'.map TrustedDevice.device_id = l.map TrustedDevice.device_id := by
  induction l generalizing l' with
  | nil => simp [updateLastConnected] at h
  | cons d rest ih =>
      by_cases hd : d.device_id = deviceId
      · simp only [updateLastConnected, if_pos hd, Except.ok.injEq] at h
        subst h
        simp
      · simp only [updateLastConnected, if_neg hd] at h
        cases hrest : updateLastConnected now deviceId rest with
        | error e => rw [hrest] at h; simp [Except.map] at h
        | ok rest' =>
            rw [hrest] at h
            simp only [Except.map, Except.ok.injEq] at h
            subst h
            simp [ih rest' hrest]

/-- The first entry matching an already-present id is, after
`add_trusted`, that same entry with device_name and last_connected
replaced. -/
theorem addTrusted_find_of_mem (now deviceId : String) (name : Option String)
    (l : List TrustedDevice) (h : deviceId ∈ l.map TrustedDevice.device_id) :
    (addTrusted now deviceId name l).find? (fun d => d.device_id == deviceId)
      = (l.find? (fun d => d.device_id == deviceId)).map
          (fun d => { d with device_name := name, last_connected := now }) := by
  induction l with
  | nil => simp at h
  | cons d rest ih =>
      by_cases hd : d.device_id = deviceId
      · simp [addTrusted, hd, List.find?]
      · have hmem : deviceId ∈ rest.map TrustedDevice.device_id := by
          simp at h
          rcases h with h | h
          · exact absurd h.symm hd
          · simpa using h
        have hbeq : (d.device_id == deviceId) = false := by
          simp [hd]
        simp [addTrusted, hd, List.find?, hbeq, ih hmem]

/-- C10: starting from a devices list free of duplicate device ids,
any sequence of `add_trusted` and `update_last_connected` operations
keeps it free of duplicates; moreover `add_trusted` on an
already-present id preserves the id and first_paired columns (so
nothing is appended and first_paired survives) and rewrites the
matching entry's device_name and last_connected in place. -/
theorem C10_no_duplicate_devices (ops : List StoreOp) (l : List TrustedDevice)
    (now deviceId : String) (name : Option String)
    (h : (l.map TrustedDevice.device_id).Nodup) :
    ((applyStoreOps ops l).map TrustedDevice.device_id).Nodup
    ∧ (deviceId ∈ l.map TrustedDevice.device_id →
        (addTrusted now deviceId name l).map (fun d => (d.device_id, d.first_paired))
          = l.map (fun d => (d.device_id, d.first_paired))
        ∧ (addTrusted now deviceId name l).find? (fun d => d.device_id == deviceId)
          = (l.find? (fun d => d.device_id == deviceId)).map
              (fun d => { d with device_name := name, last_connected := now })) := by
  constructor
  · induction ops generalizing l with
    | nil => exact h
    | cons op ops ih =>
        simp only [applyStoreOps, List.foldl_cons]
        have hstep : ((applyStoreOp op l).map TrustedDevice.device_id).Nodup := by
          cases op with
          | add n i nm =>
              simp only [applyStoreOp]
              exact addTrusted_nodup n i nm l h
          | update n i =>
              cases hu : updateLastConnected n i l with
              | ok l' =>
                  simp only [applyStoreOp, hu]
                  rw [updateLastConnected_ids n i l l' hu]
                  exact h
              | error e =>
                  simp only [applyStoreOp, hu]
                  exact h
        simpa [applyStoreOps] using ih (applyStoreOp op l) hstep
  · intro hm
    exact ⟨addTrusted_pairs_of_mem now deviceId name l hm,
           addTrusted_find_of_mem now deviceId name l hm⟩

/-- A concrete one-entry devices list for the C10 witness. -/
def exStore : List TrustedDevice :=
  [{ device_id := "A", device_name := none
   , first_paired := "t0", last_connected := "t0" }]

/-- A concrete operation sequence for the C10 witness: it re-adds the
existing device, adds a new one and updates the first. -/
def exStoreOps : List StoreOp :=
  [StoreOp.add "t1" "A" (some "PhoneA"), StoreOp.add "t2" "B" none,
   StoreOp.update "t3" "A"]

/-- Witness for C10 on a concrete one-entry store and a concrete
operation sequence that re-adds the existing device and updates it. -/
theorem C10_no_duplicate_devices_witness :
    ((applyStoreOps exStoreOps exStore).map TrustedDevice.device_id).Nodup
    ∧ ((addTrusted "t9" "A" (some "Renamed") exStore).map
          (fun d => (d.device_id, d.first_paired))
        = exStore.map (fun d => (d.device_id, d.first_paired))
      ∧ (addTrusted "t9" "A" (some "Renamed") exStore).find?
            (fun d => d.device_id == "A")
        = (exStore.find? (fun d => d.device_id == "A")).map
            (fun d =>
              { d with device_name := some "Renamed", last_connected := "t9" })) := by
  have h := C10_no_duplicate_devices exStoreOps exStore
    "t9" "A" (some "Renamed") (by simp [exStore])
  exact ⟨h.1, h.2 (by simp [exStore])⟩

end Prontafon
